import Mathlib

set_option maxRecDepth 4000

/-!
Shallow embedding of `src/main.py` of the SMID Snapshot API
(Yahoo-primary / FMP-fallback orchestration and scoring pipeline),
together with theorems settling the specification claims.

Python floats appear here as exact rationals (`ℚ`): the program only ever
compares metric values against decimal constants, which rationals model
faithfully. Python `dict.get` returning `None` is `Option`. Exceptions are
`Except`. Network I/O is passed in as explicit environment parameters.
-/

/-- An HTTP boundary error: `fastapi.HTTPException(status_code, detail)`. -/
structure Http where
  status : ℕ
  detail : String
deriving DecidableEq, Repr

/-- Python truthiness-based `a or b` on optional strings
(`None` and `""` are falsy). -/
def strOr (a b : Option String) : Option String :=
  match a with
  | some s => if s = "" then b else some s
  | none => b

/-- Python `a or d` where `d` is a plain string (used for name fallbacks). -/
def strOrD (a : Option String) (d : String) : String :=
  match a with
  | some s => if s = "" then d else s
  | none => d

/-- Python truthiness-based `a or b` on optional numbers
(`None` and `0` are falsy). -/
def qOr (a b : Option ℚ) : Option ℚ :=
  match a with
  | some x => if x = 0 then b else some x
  | none => b

/-- Python `x is not None and x < c` for an optional numeric `x`. -/
def optLt : Option ℚ → ℚ → Bool
  | some v, c => decide (v < c)
  | none, _ => false

/-- Python `x is not None and x <= c` for an optional numeric `x`. -/
def optLe : Option ℚ → ℚ → Bool
  | some v, c => decide (v ≤ c)
  | none, _ => false

/-- The normalized metrics record built by `get_company` (src/main.py
lines 192-202): the nine keys of the `metrics` dict, each optional. -/
structure Metrics where
  pe_fwd : Option ℚ
  pe : Option ℚ
  peg_fwd : Option ℚ
  gross_margin : Option ℚ
  op_margin : Option ℚ
  rev_yoy : Option ℚ
  eps_yoy : Option ℚ
  roic : Option ℚ
  de_ratio : Option ℚ
deriving DecidableEq, Repr

/-- Forward-P/E contribution (src/main.py line 61):
`20 if (pe is not None and pe < 18) else 10 if (pe is not None and pe < 25) else 0`. -/
def peScore (pe : Option ℚ) : ℤ :=
  if optLt pe 18 then 20 else if optLt pe 25 then 10 else 0

/-- Forward-PEG contribution (src/main.py line 62). -/
def pegScore (peg : Option ℚ) : ℤ :=
  if optLe peg 1.0 then 20 else if optLe peg 1.5 then 10 else 0

/-- ROIC contribution (src/main.py line 66); the argument is the value of
`(m.get("roic") or 0) or 0`, i.e. `m.roic.getD 0` (`None` and `0.0` both
collapse to `0`). -/
def roicScore (roic : ℚ) : ℤ :=
  if 0.12 ≤ roic then 20 else if 0.08 ≤ roic then 10 else 0

/-- Operating-margin contribution (src/main.py line 67). -/
def opmScore (opm : ℚ) : ℤ :=
  if 0.15 ≤ opm then 10 else if 0.08 ≤ opm then 5 else 0

/-- Revenue-growth contribution (src/main.py line 71). -/
def revScore (rev : ℚ) : ℤ :=
  if 0.20 ≤ rev then 15 else if 0.12 ≤ rev then 8 else 0

/-- EPS-growth contribution (src/main.py line 72). -/
def epsScore (eps : ℚ) : ℤ :=
  if 0.20 ≤ eps then 15 else if 0.12 ≤ eps then 8 else 0

/-- Debt-to-equity contribution (src/main.py line 75). -/
def deScore (de : Option ℚ) : ℤ :=
  if optLe de 0.5 then 10 else if optLe de 1.0 then 5 else 0

/-- The running `score` accumulated by `score_company` (src/main.py
lines 59-75) just before the final clamp on line 77. -/
def score_sum (m : Metrics) : ℤ :=
  peScore m.pe_fwd + pegScore m.peg_fwd
    + roicScore (m.roic.getD 0) + opmScore (m.op_margin.getD 0)
    + revScore (m.rev_yoy.getD 0) + epsScore (m.eps_yoy.getD 0)
    + deScore m.de_ratio

/-- `score_company` (src/main.py lines 58-77): the per-metric sum clamped
by `max(0, min(100, score))`. -/
def score_company (m : Metrics) : ℤ :=
  max 0 (min 100 (score_sum m))

/-- The glyph `"★"*s + "☆"*(5-s)` rendered on src/main.py line 38. -/
def starText (s : ℕ) : String :=
  String.mk (List.replicate s '★' ++ List.replicate (5 - s) '☆')

/-- `stars_from_score` (src/main.py lines 35-38): walks the threshold table
`[(80,5),(60,4),(40,3),(20,2),(0,1)]` and returns at the first threshold the
score reaches; a negative score falls off the loop (Python returns `None`). -/
def stars_from_score (score : ℤ) : Option (ℕ × String) :=
  if 80 ≤ score then some (5, starText 5)
  else if 60 ≤ score then some (4, starText 4)
  else if 40 ≤ score then some (3, starText 3)
  else if 20 ≤ score then some (2, starText 2)
  else if 0 ≤ score then some (1, starText 1)
  else none

/-- The all-absent metrics record (every key `None`). -/
def mNone : Metrics := ⟨none, none, none, none, none, none, none, none, none⟩

/-- A metrics record with every scored field at its best threshold
(the values of the spec's ACME scenario). -/
def mBest : Metrics :=
  ⟨some 15, none, some 0.9, none, some 0.18, some 0.25, some 0.22,
   some 0.14, some 0.3⟩

/-- A second record agreeing with `mBest` on the seven scored keys but
differing on `pe` and `gross_margin`. -/
def mBestNoisy : Metrics :=
  ⟨some 15, some 99, some 0.9, some 0.77, some 0.18, some 0.25, some 0.22,
   some 0.14, some 0.3⟩

/-! ### Yahoo primary client with retry (src/main.py lines 79-103) -/

/-- `subStart pat s` holds when `pat` is an initial segment of `s`. -/
def subStart : List Char → List Char → Bool
  | [], _ => true
  | _ :: _, [] => false
  | a :: as, b :: bs => a = b && subStart as bs

/-- `hasSub pat s` holds when `pat` occurs contiguously inside `s`. -/
def hasSub (pat : List Char) : List Char → Bool
  | [] => pat.isEmpty
  | c :: cs => subStart pat (c :: cs) || hasSub pat cs

/-- Python's `pat in s` substring test. -/
def strContains (s pat : String) : Bool := hasSub pat.data s.data

/-- The transient-failure signatures of src/main.py line 94. -/
def transientSigs : List String :=
  ["429", "Too Many Requests", "Invalid Crumb", "timed out", "Max retries", "EOF"]

/-- `transient = any(s in msg for s in (...))` (src/main.py line 94). -/
def transientSig (msg : String) : Bool :=
  transientSigs.any (fun sig => strContains msg sig)

/-- The rate-limit/blocking classification of the last error
(src/main.py line 101). -/
def rateLimitSig (msg : String) : Bool :=
  strContains msg "429" || strContains msg "Too Many Requests"
    || strContains msg "Invalid Crumb"

/-- The provider payload, projected onto the keys the program reads.
`dict.get` on a key the payload lacks is `none`. Numeric fields are exact
rationals, name/identifier fields strings. -/
structure Info where
  longName : Option String
  shortName : Option String
  currentPrice : Option ℚ
  regularMarketPrice : Option ℚ
  marketCap : Option ℚ
  forwardPE : Option ℚ
  PE : Option ℚ
  pegRatio : Option ℚ
  grossMargins : Option ℚ
  operatingMargins : Option ℚ
  revenueGrowth : Option ℚ
  earningsGrowth : Option ℚ
  returnOnEquity : Option ℚ
  returnOnCapitalEmployed : Option ℚ
  returnOnInvestedCapitalTTM : Option ℚ
  debtToEquity : Option ℚ
  cik : Option String
deriving DecidableEq, Repr

/-- The payload with no keys at all (an empty dict projects to this). -/
def Info.empty : Info :=
  ⟨none, none, none, none, none, none, none, none, none, none, none, none,
   none, none, none, none, none⟩

/-- One attempt of `t.get_info()` (src/main.py line 86): either a returned
payload together with the emptiness of the underlying dict (`if info:` is
Python dict truthiness), or a raised exception carrying its message. -/
inductive YAttempt where
  | ok (info : Info) (empty : Bool)
  | exn (msg : String)
deriving DecidableEq, Repr

instance exceptDecEq {ε α : Type} [DecidableEq ε] [DecidableEq α] :
    DecidableEq (Except ε α) := fun x y =>
  match x, y with
  | .ok a, .ok b =>
    if h : a = b then isTrue (by rw [h]) else isFalse (by simp [h])
  | .ok _, .error _ => isFalse (by simp)
  | .error _, .ok _ => isFalse (by simp)
  | .error e, .error f =>
    if h : e = f then isTrue (by rw [h]) else isFalse (by simp [h])

/-- Observable outcome of `fetch_yahoo_info_with_retry`: how many attempts
were issued, the sleeps performed between them (in order, in seconds), and
the returned payload or raised `HTTPException`. -/
structure RetryTrace where
  attempts : ℕ
  sleeps : List ℚ
  result : Except Http Info
deriving DecidableEq, Repr

/-- The post-loop classification (src/main.py lines 100-103): `str(None)`
is `"None"`; a rate-limit/blocking signature in the last error raises 429,
anything else 502. `attempts`/`sleeps` thread the trace through. -/
def yahooFinish (lastErr : Option String) (attempts : ℕ) (sleeps : List ℚ) :
    RetryTrace :=
  let s := match lastErr with | none => "None" | some m => m
  if rateLimitSig s = true then
    ⟨attempts, sleeps, .error ⟨429, "Yahoo blocked the request (rate/crumb)."⟩⟩
  else
    ⟨attempts, sleeps, .error ⟨502, "Yahoo request failed: " ++ s⟩⟩

/-- The retry loop of src/main.py lines 84-98. `fuel` counts the iterations
left in `range(max_retries)` (so `fuel + attempt = max_retries` at entry);
`outcomes attempt` is what the network call of that iteration does. A
non-empty payload returns; an empty payload raises
`ValueError("Empty info payload")` into the handler; a transient message
with attempts remaining sleeps `base_sleep * 2 ** attempt` and continues;
anything else breaks to the post-loop classification. -/
def yahooAux (outcomes : ℕ → YAttempt) (maxRetries : ℕ) (baseSleep : ℚ) :
    ℕ → ℕ → Option String → List ℚ → RetryTrace
  | 0, attempt, lastErr, sleeps => yahooFinish lastErr attempt sleeps
  | fuel + 1, attempt, _, sleeps =>
    match outcomes attempt with
    | .ok info false => ⟨attempt + 1, sleeps, .ok info⟩
    | .ok _ true =>
      if attempt + 1 < maxRetries ∧ transientSig "Empty info payload" = true then
        yahooAux outcomes maxRetries baseSleep fuel (attempt + 1)
          (some "Empty info payload") (sleeps ++ [baseSleep * 2 ^ attempt])
      else yahooFinish (some "Empty info payload") (attempt + 1) sleeps
    | .exn msg =>
      if attempt + 1 < maxRetries ∧ transientSig msg = true then
        yahooAux outcomes maxRetries baseSleep fuel (attempt + 1)
          (some msg) (sleeps ++ [baseSleep * 2 ^ attempt])
      else yahooFinish (some msg) (attempt + 1) sleeps

/-- `fetch_yahoo_info_with_retry` (src/main.py lines 81-103), as the trace
it produces on a given sequence of attempt outcomes. The returned ticker
handle `t` carries no data the claims touch and is dropped. -/
def fetch_yahoo_info_with_retry (outcomes : ℕ → YAttempt) (maxRetries : ℕ)
    (baseSleep : ℚ) : RetryTrace :=
  yahooAux outcomes maxRetries baseSleep maxRetries 0 none []

/-! ### FMP fallback client (src/main.py lines 105-159) -/

/-- A raised Python exception as `fetch_fmp_info`'s handlers see it: either
an `HTTPException` (as raised by `fmp_get`) or any other exception carrying
its message. -/
inductive Exc where
  | http (e : Http)
  | err (msg : String)
deriving DecidableEq, Repr

/-- Python `str(e)`: Starlette's `HTTPException.__str__` renders
`"{status_code}: {detail}"`; other exceptions render their message. -/
def Exc.str : Exc → String
  | .http e => toString e.status ++ ": " ++ e.detail
  | .err m => m

/-- A parsed JSON response body as the fallback client inspects it: either a
sequence of records or something that is not a sequence (the
`isinstance(..., list)` test). -/
inductive ListResp (α : Type) where
  | list (rs : List α)
  | nonlist
deriving DecidableEq, Repr

/-- `x[0] if isinstance(x, list) and x else {}` (src/main.py lines 125, 132,
139): first element of a non-empty sequence, otherwise the empty record. -/
def listFirst {α : Type} (default : α) : ListResp α → α
  | .list (x :: _) => x
  | .list [] => default
  | .nonlist => default

/-- A record of the FMP `/profile/{ticker}` endpoint, projected onto the
keys read on src/main.py lines 145-147 and 157. -/
structure FmpProfile where
  companyName : Option String
  symbol : Option String
  price : Option ℚ
  mktCap : Option ℚ
  cik : Option String
deriving DecidableEq, Repr

/-- A record of the FMP `/ratios-ttm/{ticker}` endpoint, projected onto the
keys read on src/main.py lines 148-156. -/
structure FmpRatios where
  priceEarningsRatioTTM : Option ℚ
  grossProfitMarginTTM : Option ℚ
  operatingProfitMarginTTM : Option ℚ
  returnOnEquityTTM : Option ℚ
  returnOnCapitalEmployedTTM : Option ℚ
  returnOnInvestedCapitalTTM : Option ℚ
  debtEquityRatioTTM : Option ℚ
deriving DecidableEq, Repr

/-- A record of the FMP `/financial-growth/{ticker}` endpoint, projected
onto the keys read on src/main.py lines 152-153. -/
structure FmpGrowth where
  revenueGrowthTTM : Option ℚ
  epsgrowthTTM : Option ℚ
deriving DecidableEq, Repr

/-- The empty profile record `{}`. -/
def emptyProfile : FmpProfile := ⟨none, none, none, none, none⟩

/-- The empty ratios record `{}`. -/
def emptyRatios : FmpRatios := ⟨none, none, none, none, none, none, none⟩

/-- The empty growth record `{}`. -/
def emptyGrowth : FmpGrowth := ⟨none, none⟩

/-- The FMP network for one request, one entry per endpoint the fallback
client hits: each sub-request either raises (message) or yields a parsed
body. The `apikey` query parameter and URL assembly are connection plumbing
carried by the environment. -/
structure FmpNet where
  profile : Except String (ListResp FmpProfile)
  ratios : Except String (ListResp FmpRatios)
  growth : Except String (ListResp FmpGrowth)

/-- Python `if not FMP_KEY` — an unset or empty credential is falsy. -/
def keyTruthy : Option String → Bool
  | none => false
  | some s => decide (s ≠ "")

/-- `fmp_get` (src/main.py lines 107-116) on one endpoint: raises the 503
`HTTPException` when no credential is configured, otherwise performs the
request, whose own failures surface as ordinary exceptions. -/
def fmp_get {α : Type} (key : Option String)
    (r : Except String (ListResp α)) : Except Exc (ListResp α) :=
  if keyTruthy key = true then
    match r with
    | .error m => .error (.err m)
    | .ok v => .ok v
  else .error (.http ⟨503, "FMP API key not set. Set FMP_API_KEY env var."⟩)

/-- The Yahoo-shaped dict assembled on src/main.py lines 144-158; keys the
dict literal does not mention are absent. -/
def assembleInfo (profile : FmpProfile) (ratios : FmpRatios)
    (growth : FmpGrowth) : Info where
  longName := strOr profile.companyName profile.symbol
  shortName := none
  currentPrice := profile.price
  regularMarketPrice := none
  marketCap := profile.mktCap
  forwardPE := ratios.priceEarningsRatioTTM
  PE := none
  pegRatio := none
  grossMargins := ratios.grossProfitMarginTTM
  operatingMargins := ratios.operatingProfitMarginTTM
  revenueGrowth := growth.revenueGrowthTTM
  earningsGrowth := growth.epsgrowthTTM
  returnOnEquity := ratios.returnOnEquityTTM
  returnOnCapitalEmployed :=
    qOr ratios.returnOnCapitalEmployedTTM ratios.returnOnInvestedCapitalTTM
  returnOnInvestedCapitalTTM := none
  debtToEquity := ratios.debtEquityRatioTTM
  cik := profile.cik

/-- `fetch_fmp_info` (src/main.py lines 118-159). The profile sub-request's
handler catches every exception (including `fmp_get`'s 503 `HTTPException`)
and re-raises a 502 wrapping `str(e)`; the ratios and growth handlers absorb
failures as empty records. `ticker` only affects the request paths, which
live inside `net`. -/
def fetch_fmp_info (key : Option String) (net : FmpNet) (ticker : String) :
    Except Http Info :=
  match fmp_get key net.profile with
  | .error e => .error ⟨502, "FMP profile error: " ++ e.str⟩
  | .ok resp =>
    let profile := listFirst emptyProfile resp
    let ratios :=
      match fmp_get key net.ratios with
      | .error _ => emptyRatios
      | .ok r => listFirst emptyRatios r
    let growth :=
      match fmp_get key net.growth with
      | .error _ => emptyGrowth
      | .ok g => listFirst emptyGrowth g
    .ok (assembleInfo profile ratios growth)

/-! ### Orchestrator (src/main.py lines 40-56 and 161-225) -/

/-- `latest_filing` (src/main.py lines 40-56): a falsy identifier (absent or
empty) yields no filing; otherwise the SEC request and the scan of its
response for the first 10-Q/10-K entry — external I/O — are abstracted as
`filingOf`, which returns the constructed URL or `none` on any failure. -/
def latest_filing (cik : Option String)
    (filingOf : String → Option String) : Option String :=
  match cik with
  | none => none
  | some c => if c = "" then none else filingOf c

/-- The `Snapshot` response model (src/main.py lines 21-31). -/
structure Snapshot where
  ticker : String
  name : Option String
  price : Option ℚ
  market_cap : Option ℚ
  metrics : Metrics
  composite_score : ℤ
  stars : ℕ
  stars_text : String
  filings : Option String
  notes : String
deriving DecidableEq, Repr

/-- The provider-agnostic tail of `get_company` (src/main.py lines 191-225):
metrics assembly, filing lookup, scoring, star mapping and response
assembly. The `.getD (0, "")` arm is unreachable: the composite score is
always in `[0,100]`, where `stars_from_score` is total. -/
def buildSnapshot (ticker : String) (info : Info) (name : String)
    (price mcap : Option ℚ) (filingOf : String → Option String)
    (use_fmp : Bool) : Snapshot :=
  let metrics : Metrics :=
    ⟨info.forwardPE, info.PE, info.pegRatio, info.grossMargins,
     info.operatingMargins, info.revenueGrowth, info.earningsGrowth,
     qOr (qOr info.returnOnCapitalEmployed info.returnOnInvestedCapitalTTM)
       info.returnOnEquity,
     info.debtToEquity⟩
  let filings := latest_filing info.cik filingOf
  let composite := score_company metrics
  let st := (stars_from_score composite).getD (0, "")
  ⟨ticker.toUpper, some name, price, mcap, metrics, composite, st.1, st.2,
   filings,
   (if use_fmp then "FMP fallback (Yahoo blocked/crumb/rate limit)"
    else "Yahoo primary") ++ ". Data cached 1h."⟩

/-- `get_company` (src/main.py lines 163-225): try Yahoo with the default
budget (4 attempts, base 1.5s); on any `HTTPException` switch to the FMP
fallback, whose own `HTTPException`s propagate to the caller. `fastLast`
is the `t.fast_info.get("last_price")` call of lines 184-188. -/
def get_company (outcomes : ℕ → YAttempt)
    (fastLast : Except String (Option ℚ)) (key : Option String)
    (net : FmpNet) (filingOf : String → Option String)
    (ticker : String) : Except Http Snapshot :=
  match (fetch_yahoo_info_with_retry outcomes 4 1.5).result with
  | .ok info =>
    let name := strOrD (strOr info.longName info.shortName) ticker.toUpper
    let price :=
      match qOr info.currentPrice info.regularMarketPrice with
      | some p => some p
      | none =>
        match fastLast with
        | .ok p => p
        | .error _ => none
    .ok (buildSnapshot ticker info name price info.marketCap filingOf false)
  | .error _ =>
    match fetch_fmp_info key net ticker with
    | .error e => .error e
    | .ok info =>
      let price := info.currentPrice
      let name := strOrD info.longName ticker.toUpper
      .ok (buildSnapshot ticker info name price info.marketCap filingOf true)

/-- An FMP network whose profile sub-request raises. -/
def netProfileDown : FmpNet := ⟨.error "boom", .ok (.list []), .ok (.list [])⟩

/-- A concrete profile record. -/
def prA : FmpProfile :=
  ⟨some "Acme Corp", some "ACME", some 50, some 1000000000, some "0000123456"⟩

/-- A concrete ratios record. -/
def rtA : FmpRatios :=
  ⟨some 15, some 0.5, some 0.18, some 0.1, some 0.14, none, some 0.3⟩

/-- A concrete growth record. -/
def grA : FmpGrowth := ⟨some 0.25, some 0.22⟩

/-- An FMP network whose ratios sub-request raises. -/
def netRatiosDown : FmpNet :=
  ⟨.ok (.list [prA]), .error "down", .ok (.list [grA])⟩

/-- An FMP network whose growth sub-request raises. -/
def netGrowthDown : FmpNet :=
  ⟨.ok (.list [prA]), .ok (.list [rtA]), .error "down"⟩

/-- An FMP network with every sub-request raising. -/
def cexNet : FmpNet := ⟨.error "down", .error "down", .error "down"⟩


/-! ### Theorems settling the claims -/

-- Per-component range lemmas for the scoring table.

theorem peScore_bounds (x : Option ℚ) : 0 ≤ peScore x ∧ peScore x ≤ 20 := by
  unfold peScore; split_ifs <;> omega

theorem pegScore_bounds (x : Option ℚ) : 0 ≤ pegScore x ∧ pegScore x ≤ 20 := by
  unfold pegScore; split_ifs <;> omega

theorem roicScore_bounds (x : ℚ) : 0 ≤ roicScore x ∧ roicScore x ≤ 20 := by
  unfold roicScore; split_ifs <;> omega

theorem opmScore_bounds (x : ℚ) : 0 ≤ opmScore x ∧ opmScore x ≤ 10 := by
  unfold opmScore; split_ifs <;> omega

theorem revScore_bounds (x : ℚ) : 0 ≤ revScore x ∧ revScore x ≤ 15 := by
  unfold revScore; split_ifs <;> omega

theorem epsScore_bounds (x : ℚ) : 0 ≤ epsScore x ∧ epsScore x ≤ 15 := by
  unfold epsScore; split_ifs <;> omega

theorem deScore_bounds (x : Option ℚ) : 0 ≤ deScore x ∧ deScore x ≤ 10 := by
  unfold deScore; split_ifs <;> omega

theorem score_sum_bounds (m : Metrics) : 0 ≤ score_sum m ∧ score_sum m ≤ 110 := by
  have h1 := peScore_bounds m.pe_fwd
  have h2 := pegScore_bounds m.peg_fwd
  have h3 := roicScore_bounds (m.roic.getD 0)
  have h4 := opmScore_bounds (m.op_margin.getD 0)
  have h5 := revScore_bounds (m.rev_yoy.getD 0)
  have h6 := epsScore_bounds (m.eps_yoy.getD 0)
  have h7 := deScore_bounds m.de_ratio
  unfold score_sum
  omega

-- Per-component monotonicity: a lower value never lowers the antitone
-- contributions, a higher value never lowers the monotone ones.

theorem peScore_anti {v v' : ℚ} (h : v' ≤ v) :
    peScore (some v) ≤ peScore (some v') := by
  unfold peScore optLt
  simp only [decide_eq_true_eq]
  split_ifs <;> first | omega | linarith

theorem pegScore_anti {v v' : ℚ} (h : v' ≤ v) :
    pegScore (some v) ≤ pegScore (some v') := by
  unfold pegScore optLe
  simp only [decide_eq_true_eq]
  split_ifs <;> first | omega | linarith

theorem roicScore_mono {v v' : ℚ} (h : v ≤ v') : roicScore v ≤ roicScore v' := by
  unfold roicScore
  split_ifs <;> first | omega | linarith

theorem opmScore_mono {v v' : ℚ} (h : v ≤ v') : opmScore v ≤ opmScore v' := by
  unfold opmScore
  split_ifs <;> first | omega | linarith

theorem revScore_mono {v v' : ℚ} (h : v ≤ v') : revScore v ≤ revScore v' := by
  unfold revScore
  split_ifs <;> first | omega | linarith

theorem epsScore_mono {v v' : ℚ} (h : v ≤ v') : epsScore v ≤ epsScore v' := by
  unfold epsScore
  split_ifs <;> first | omega | linarith

theorem deScore_anti {v v' : ℚ} (h : v' ≤ v) :
    deScore (some v) ≤ deScore (some v') := by
  unfold deScore optLe
  simp only [decide_eq_true_eq]
  split_ifs <;> first | omega | linarith

-- Per-component best-threshold values.

theorem peScore_best {v : ℚ} (h : v < 18) : peScore (some v) = 20 := by
  unfold peScore optLt; simp [h]

theorem pegScore_best {v : ℚ} (h : v ≤ 1.0) : pegScore (some v) = 20 := by
  unfold pegScore optLe; simp [h]

theorem roicScore_best {v : ℚ} (h : 0.12 ≤ v) : roicScore v = 20 := by
  unfold roicScore; rw [if_pos h]

theorem opmScore_best {v : ℚ} (h : 0.15 ≤ v) : opmScore v = 10 := by
  unfold opmScore; rw [if_pos h]

theorem revScore_best {v : ℚ} (h : 0.20 ≤ v) : revScore v = 15 := by
  unfold revScore; rw [if_pos h]

theorem epsScore_best {v : ℚ} (h : 0.20 ≤ v) : epsScore v = 15 := by
  unfold epsScore; rw [if_pos h]

theorem deScore_best {v : ℚ} (h : v ≤ 0.5) : deScore (some v) = 10 := by
  unfold deScore optLe; simp [h]

-- Component values at absent (`None`) fields and at the `or 0` default.

theorem peScore_none : peScore none = 0 := rfl

theorem pegScore_none : pegScore none = 0 := rfl

theorem deScore_none : deScore none = 0 := rfl

theorem roicScore_zero : roicScore 0 = 0 := by unfold roicScore; norm_num

theorem opmScore_zero : opmScore 0 = 0 := by unfold opmScore; norm_num

theorem revScore_zero : revScore 0 = 0 := by unfold revScore; norm_num

theorem epsScore_zero : epsScore 0 = 0 := by unfold epsScore; norm_num

/-- The pre-clamp sum at the all-absent record is 0. -/
theorem score_sum_mNone : score_sum mNone = 0 := by
  show peScore none + pegScore none + roicScore (Option.getD none 0)
      + opmScore (Option.getD none 0) + revScore (Option.getD none 0)
      + epsScore (Option.getD none 0) + deScore none = 0
  simp only [Option.getD_none]
  rw [peScore_none, pegScore_none, roicScore_zero, opmScore_zero,
      revScore_zero, epsScore_zero, deScore_none]
  norm_num

/-- The pre-clamp sum at the all-best record is 110. -/
theorem score_sum_mBest : score_sum mBest = 110 := by
  show peScore (some 15) + pegScore (some 0.9)
      + roicScore (Option.getD (some 0.14) 0)
      + opmScore (Option.getD (some 0.18) 0)
      + revScore (Option.getD (some 0.25) 0)
      + epsScore (Option.getD (some 0.22) 0) + deScore (some 0.3) = 110
  simp only [Option.getD_some]
  rw [@peScore_best 15 (by norm_num), @pegScore_best 0.9 (by norm_num),
      @roicScore_best 0.14 (by norm_num), @opmScore_best 0.18 (by norm_num),
      @revScore_best 0.25 (by norm_num), @epsScore_best 0.22 (by norm_num),
      @deScore_best 0.3 (by norm_num)]
  norm_num

/-- C3 counterexample: at the all-best-thresholds record the pre-clamp sum of
`score_company` is 110, strictly above 100, and the clamp lowers it to 100 —
so the scoring table's maximum is not 100 and the clamp is not purely
defensive. -/
theorem score_sum_best_exceeds_100 :
    score_sum mBest = 110 ∧ score_company mBest = 100 ∧
    ¬ score_sum mBest ≤ 100 := by
  have h := score_sum_mBest
  refine ⟨h, ?_, by omega⟩
  unfold score_company
  omega

/-- C3 amended: the pre-clamp sum of `score_company` lies in `[0, 110]` (not
`[0, 100]`): the table's maximum is 110, the lower clamp never fires, and the
upper clamp does change the result whenever the sum exceeds 100, i.e.
`score_company` computes `min 100` of the sum. -/
theorem score_sum_range_and_clamp (m : Metrics) :
    0 ≤ score_sum m ∧ score_sum m ≤ 110 ∧
    score_company m = min 100 (score_sum m) := by
  obtain ⟨h0, h110⟩ := score_sum_bounds m
  refine ⟨h0, h110, ?_⟩
  unfold score_company
  omega

/-- C6: when every scored field meets its best threshold, `score_company`
returns exactly 100 (the raw sum 110 is clamped) and `stars_from_score`
yields 5 stars with glyph "★★★★★". -/
theorem score_best_thresholds_eq_100 (m : Metrics) (pe peg r om rv ep de : ℚ)
    (hpe : m.pe_fwd = some pe) (hpe18 : pe < 18)
    (hpeg : m.peg_fwd = some peg) (hpeg1 : peg ≤ 1.0)
    (hr : m.roic = some r) (hr12 : 0.12 ≤ r)
    (hom : m.op_margin = some om) (hom15 : 0.15 ≤ om)
    (hrv : m.rev_yoy = some rv) (hrv20 : 0.20 ≤ rv)
    (hep : m.eps_yoy = some ep) (hep20 : 0.20 ≤ ep)
    (hde : m.de_ratio = some de) (hde5 : de ≤ 0.5) :
    score_company m = 100 ∧
    stars_from_score (score_company m) = some (5, "★★★★★") := by
  have hsum : score_sum m = 110 := by
    unfold score_sum
    rw [hpe, hpeg, hr, hom, hrv, hep, hde]
    simp only [Option.getD_some]
    rw [peScore_best hpe18, pegScore_best hpeg1, roicScore_best hr12,
        opmScore_best hom15, revScore_best hrv20, epsScore_best hep20,
        deScore_best hde5]
    norm_num
  have h100 : score_company m = 100 := by unfold score_company; omega
  refine ⟨h100, ?_⟩
  rw [h100]
  decide

/-- Witness for C6 at the concrete all-best record `mBest`. -/
theorem score_best_thresholds_eq_100_witness :
    score_company mBest = 100 ∧
    stars_from_score (score_company mBest) = some (5, "★★★★★") :=
  score_best_thresholds_eq_100 mBest 15 0.9 0.14 0.18 0.25 0.22 0.3
    rfl (by norm_num) rfl (by norm_num) rfl (by norm_num) rfl (by norm_num)
    rfl (by norm_num) rfl (by norm_num) rfl (by norm_num)

/-- C7 counterexample: on the all-absent record the score is 0 and the star
rating is 1, but the rendered glyph is "★☆☆☆☆" (one filled star), not the
claimed "☆☆☆☆☆". -/
theorem stars_all_absent_glyph :
    score_company mNone = 0 ∧
    stars_from_score (score_company mNone) = some (1, "★☆☆☆☆") ∧
    stars_from_score (score_company mNone) ≠ some (1, "☆☆☆☆☆") := by
  have hs := score_sum_mNone
  have h0 : score_company mNone = 0 := by unfold score_company; omega
  refine ⟨h0, ?_, ?_⟩ <;> rw [h0] <;> decide

/-- C7 amended: every metrics record with all nine fields absent scores
exactly 0 and maps to 1 star with glyph "★☆☆☆☆" (the 1-star glyph renders one
filled star followed by four empty ones). -/
theorem score_all_absent_eq_0 (m : Metrics)
    (h1 : m.pe_fwd = none) (h2 : m.pe = none) (h3 : m.peg_fwd = none)
    (h4 : m.gross_margin = none) (h5 : m.op_margin = none)
    (h6 : m.rev_yoy = none) (h7 : m.eps_yoy = none) (h8 : m.roic = none)
    (h9 : m.de_ratio = none) :
    score_company m = 0 ∧
    stars_from_score (score_company m) = some (1, "★☆☆☆☆") := by
  have hm : m = mNone := by
    obtain ⟨p1, p2, p3, p4, p5, p6, p7, p8, p9⟩ := m
    simp only [mNone] at *
    simp_all
  subst hm
  have hs := score_sum_mNone
  have h0 : score_company mNone = 0 := by unfold score_company; omega
  exact ⟨h0, by rw [h0]; decide⟩

/-- Witness for the amended C7 at the concrete all-absent record. -/
theorem score_all_absent_eq_0_witness :
    score_company mNone = 0 ∧
    stars_from_score (score_company mNone) = some (1, "★☆☆☆☆") :=
  score_all_absent_eq_0 mNone rfl rfl rfl rfl rfl rfl rfl rfl rfl

/-- Clamping to `[0,100]` is monotone. -/
theorem clamp_mono {x y : ℤ} (h : x ≤ y) :
    max 0 (min 100 x) ≤ max 0 (min 100 y) := by omega

/-- C8: improving any single scored metric (lowering forward P/E, forward PEG
or D/E; raising ROIC, operating margin, revenue YoY or EPS YoY) while holding
the other fields fixed never decreases `score_company`. -/
theorem score_monotone_per_metric :
    (∀ (m : Metrics) (v v' : ℚ), v' ≤ v →
      score_company {m with pe_fwd := some v} ≤
        score_company {m with pe_fwd := some v'}) ∧
    (∀ (m : Metrics) (v v' : ℚ), v' ≤ v →
      score_company {m with peg_fwd := some v} ≤
        score_company {m with peg_fwd := some v'}) ∧
    (∀ (m : Metrics) (v v' : ℚ), v ≤ v' →
      score_company {m with roic := some v} ≤
        score_company {m with roic := some v'}) ∧
    (∀ (m : Metrics) (v v' : ℚ), v ≤ v' →
      score_company {m with op_margin := some v} ≤
        score_company {m with op_margin := some v'}) ∧
    (∀ (m : Metrics) (v v' : ℚ), v ≤ v' →
      score_company {m with rev_yoy := some v} ≤
        score_company {m with rev_yoy := some v'}) ∧
    (∀ (m : Metrics) (v v' : ℚ), v ≤ v' →
      score_company {m with eps_yoy := some v} ≤
        score_company {m with eps_yoy := some v'}) ∧
    (∀ (m : Metrics) (v v' : ℚ), v' ≤ v →
      score_company {m with de_ratio := some v} ≤
        score_company {m with de_ratio := some v'}) := by
  refine ⟨?_, ?_, ?_, ?_, ?_, ?_, ?_⟩ <;>
    · intro m v v' h
      obtain ⟨p1, p2, p3, p4, p5, p6, p7, p8, p9⟩ := m
      unfold score_company
      apply clamp_mono
      unfold score_sum
      dsimp only [Option.getD_some]
      first
      | linarith [peScore_anti h]
      | linarith [pegScore_anti h]
      | linarith [roicScore_mono h]
      | linarith [opmScore_mono h]
      | linarith [revScore_mono h]
      | linarith [epsScore_mono h]
      | linarith [deScore_anti h]

/-- Witness for C8: a concrete improving move of forward P/E. -/
theorem score_monotone_per_metric_witness :
    score_company {mNone with pe_fwd := some 20} ≤
      score_company {mNone with pe_fwd := some 15} :=
  score_monotone_per_metric.1 mNone 20 15 (by norm_num)

/-- C9: the composite score always lies in `[0,100]`, and on every such score
`stars_from_score` yields a star count in `[1,5]` whose glyph is the star
count of filled symbols followed by the complement of empty ones, of length
exactly 5. -/
theorem score_and_stars_invariants (m : Metrics) :
    0 ≤ score_company m ∧ score_company m ≤ 100 ∧
    ∃ s g, stars_from_score (score_company m) = some (s, g) ∧
      1 ≤ s ∧ s ≤ 5 ∧ g = starText s ∧ g.length = 5 := by
  have h0 : 0 ≤ score_company m := by unfold score_company; omega
  have h100 : score_company m ≤ 100 := by unfold score_company; omega
  refine ⟨h0, h100, ?_⟩
  unfold stars_from_score
  split_ifs with hA hB hC hD
  · exact ⟨5, starText 5, rfl, by omega, by omega, rfl, by decide⟩
  · exact ⟨4, starText 4, rfl, by omega, by omega, rfl, by decide⟩
  · exact ⟨3, starText 3, rfl, by omega, by omega, rfl, by decide⟩
  · exact ⟨2, starText 2, rfl, by omega, by omega, rfl, by decide⟩
  · exact ⟨1, starText 1, rfl, by omega, by omega, rfl, by decide⟩

/-- C10: `score_company` reads only the seven keys `pe_fwd`, `peg_fwd`,
`roic`, `op_margin`, `rev_yoy`, `eps_yoy`, `de_ratio`: two records agreeing
on them get the same score, so `gross_margin` and the orchestrator's extra
`pe` key never influence it. -/
theorem score_depends_only_on_scored_keys (m1 m2 : Metrics)
    (h1 : m1.pe_fwd = m2.pe_fwd) (h2 : m1.peg_fwd = m2.peg_fwd)
    (h3 : m1.roic = m2.roic) (h4 : m1.op_margin = m2.op_margin)
    (h5 : m1.rev_yoy = m2.rev_yoy) (h6 : m1.eps_yoy = m2.eps_yoy)
    (h7 : m1.de_ratio = m2.de_ratio) :
    score_company m1 = score_company m2 := by
  unfold score_company score_sum
  rw [h1, h2, h3, h4, h5, h6, h7]

/-- Witness for C10: `mBest` and `mBestNoisy` differ on `pe` and
`gross_margin` yet score identically. -/
theorem score_depends_only_on_scored_keys_witness :
    score_company mBest = score_company mBestNoisy :=
  score_depends_only_on_scored_keys mBest mBestNoisy
    rfl rfl rfl rfl rfl rfl rfl

/-- C1 counterexample: with the primary call returning a successful but
empty payload on the first attempt (budget 4, base sleep 1.5s), the client
does not sleep and does not retry: it stops after one attempt with the 502
upstream-failure error, because the message "Empty info payload" matches no
transient signature. -/
theorem yahoo_empty_payload_no_retry_cex :
    (fetch_yahoo_info_with_retry (fun _ => YAttempt.ok Info.empty true) 4 1.5).attempts = 1 ∧
    (fetch_yahoo_info_with_retry (fun _ => YAttempt.ok Info.empty true) 4 1.5).sleeps = [] ∧
    (fetch_yahoo_info_with_retry (fun _ => YAttempt.ok Info.empty true) 4 1.5).result =
      Except.error ⟨502, "Yahoo request failed: Empty info payload"⟩ ∧
    (fetch_yahoo_info_with_retry (fun _ => YAttempt.ok Info.empty true) 4 1.5).sleeps ≠
      [1.5 * 2 ^ 0] := by
  refine ⟨rfl, rfl, rfl, ?_⟩
  rw [show (fetch_yahoo_info_with_retry (fun _ => YAttempt.ok Info.empty true)
      4 1.5).sleeps = [] from rfl]
  simp

/-- C1 amended: an empty-but-successful payload is converted to the error
message "Empty info payload", which matches no transient signature, so even
with attempts remaining the client neither sleeps nor retries: it exits the
loop at once and raises the 502 upstream-failure error. -/
theorem yahoo_empty_payload_no_retry (outcomes : ℕ → YAttempt) (maxR : ℕ)
    (base : ℚ) (info : Info) (hR : 1 ≤ maxR)
    (h0 : outcomes 0 = .ok info true) :
    fetch_yahoo_info_with_retry outcomes maxR base =
      ⟨1, [], .error ⟨502, "Yahoo request failed: Empty info payload"⟩⟩ := by
  obtain ⟨f, rfl⟩ : ∃ f, maxR = f + 1 := ⟨maxR - 1, by omega⟩
  have ht : transientSig "Empty info payload" = false := by decide
  unfold fetch_yahoo_info_with_retry
  simp only [yahooAux, h0]
  rw [if_neg (by simp [ht])]
  rfl

/-- Witness for the amended C1 at a concrete outcome sequence. -/
theorem yahoo_empty_payload_no_retry_witness :
    fetch_yahoo_info_with_retry (fun _ => YAttempt.ok Info.empty true) 4 1.5 =
      ⟨1, [], .error ⟨502, "Yahoo request failed: Empty info payload"⟩⟩ :=
  yahoo_empty_payload_no_retry (fun _ => YAttempt.ok Info.empty true) 4 1.5
    Info.empty (by norm_num) rfl

/-- Closed form of the retry loop when every remaining attempt raises a
transient-signature error: all fuel is consumed, one geometric sleep is
recorded per retried attempt, and the loop ends in the post-loop
classification of the final attempt's message. -/
theorem yahooAux_allTransient (outcomes : ℕ → YAttempt) (msgs : ℕ → String)
    (maxR : ℕ) (base : ℚ) :
    ∀ (fuel attempt : ℕ) (lastErr : Option String) (sleeps : List ℚ),
      fuel + attempt = maxR → 1 ≤ fuel →
      (∀ a, attempt ≤ a → a < maxR →
        outcomes a = .exn (msgs a) ∧ transientSig (msgs a) = true) →
      yahooAux outcomes maxR base fuel attempt lastErr sleeps =
        yahooFinish (some (msgs (maxR - 1))) maxR
          (sleeps ++ (List.range' attempt (fuel - 1)).map (fun a => base * 2 ^ a)) := by
  intro fuel
  induction fuel with
  | zero => intro attempt lastErr sleeps h1 h2 h3; omega
  | succ f ih =>
    intro attempt lastErr sleeps hsum hpos h
    have hattempt : attempt < maxR := by omega
    obtain ⟨hout, htr⟩ := h attempt le_rfl hattempt
    simp only [yahooAux, hout]
    by_cases hf : f = 0
    · subst hf
      rw [if_neg (by omega)]
      have ha : attempt = maxR - 1 := by omega
      simp only [Nat.add_sub_cancel, List.range'_zero, List.map_nil,
        List.append_nil]
      congr 1 <;> first | omega | rw [ha]
    · rw [if_pos ⟨by omega, htr⟩]
      rw [ih (attempt + 1) (some (msgs attempt)) (sleeps ++ [base * 2 ^ attempt])
          (by omega) (by omega) (fun a ha h2 => h a (by omega) h2)]
      congr 1
      obtain ⟨f', rfl⟩ : ∃ f', f = f' + 1 := ⟨f - 1, by omega⟩
      rw [List.append_assoc]
      simp only [Nat.add_sub_cancel]
      rw [List.range'_succ]
      simp

/-- C4: under a persistent transient failure signature the primary client
makes exactly `max_retries` attempts, sleeps `base_sleep * 2 ** attempt`
seconds between consecutive attempts — a strictly increasing sequence when
the base is positive — and after exhaustion raises the 429 rate-limit error
when the last message carries a rate-limit/blocking signature, otherwise
the 502 upstream-failure error. -/
theorem yahoo_persistent_transient_retries (outcomes : ℕ → YAttempt)
    (msgs : ℕ → String) (maxR : ℕ) (base : ℚ) (hR : 1 ≤ maxR) (hb : 0 < base)
    (h : ∀ a, a < maxR →
      outcomes a = .exn (msgs a) ∧ transientSig (msgs a) = true) :
    (fetch_yahoo_info_with_retry outcomes maxR base).attempts = maxR ∧
    (fetch_yahoo_info_with_retry outcomes maxR base).sleeps =
      (List.range (maxR - 1)).map (fun a => base * 2 ^ a) ∧
    (fetch_yahoo_info_with_retry outcomes maxR base).sleeps.Pairwise (· < ·) ∧
    (fetch_yahoo_info_with_retry outcomes maxR base).result =
      .error (if rateLimitSig (msgs (maxR - 1)) = true then
          ⟨429, "Yahoo blocked the request (rate/crumb)."⟩
        else ⟨502, "Yahoo request failed: " ++ msgs (maxR - 1)⟩) := by
  have hmain : fetch_yahoo_info_with_retry outcomes maxR base =
      yahooFinish (some (msgs (maxR - 1))) maxR
        ((List.range (maxR - 1)).map (fun a => base * 2 ^ a)) := by
    unfold fetch_yahoo_info_with_retry
    rw [yahooAux_allTransient outcomes msgs maxR base maxR 0 none []
        (by omega) hR (fun a _ h2 => h a h2)]
    rw [List.range_eq_range']
    simp
  have hpair : ((List.range (maxR - 1)).map
      (fun a => base * 2 ^ a)).Pairwise (· < ·) := by
    refine List.Pairwise.map _ ?_ (List.pairwise_lt_range _)
    intro a b hab
    have h2 : (2 : ℚ) ^ a < 2 ^ b := pow_lt_pow_right₀ one_lt_two hab
    exact mul_lt_mul_of_pos_left h2 hb
  rw [hmain]
  unfold yahooFinish
  by_cases hrl : rateLimitSig (msgs (maxR - 1)) = true
  · rw [if_pos hrl, if_pos hrl]
    exact ⟨rfl, rfl, hpair, rfl⟩
  · rw [if_neg hrl, if_neg hrl]
    exact ⟨rfl, rfl, hpair, rfl⟩

/-- Witness for C4: four persistent "429" failures with the default budget
(4 attempts, base 1.5s) sleep 1.5, 3 and 6 seconds and end in the 429
rate-limit error. -/
theorem yahoo_persistent_transient_retries_witness :
    (fetch_yahoo_info_with_retry (fun _ => YAttempt.exn "429") 4 1.5).attempts = 4 ∧
    (fetch_yahoo_info_with_retry (fun _ => YAttempt.exn "429") 4 1.5).sleeps =
      (List.range 3).map (fun a => (1.5 : ℚ) * 2 ^ a) ∧
    (fetch_yahoo_info_with_retry (fun _ => YAttempt.exn "429") 4 1.5).sleeps.Pairwise (· < ·) ∧
    (fetch_yahoo_info_with_retry (fun _ => YAttempt.exn "429") 4 1.5).result =
      .error ⟨429, "Yahoo blocked the request (rate/crumb)."⟩ := by
  have h := yahoo_persistent_transient_retries (fun _ => YAttempt.exn "429")
    (fun _ => "429") 4 1.5 (by norm_num) (by norm_num)
    (fun a _ => ⟨rfl, by show transientSig "429" = true; decide⟩)
  simpa using h

/-- C5: with a configured credential, a failing profile sub-request makes the
whole fallback fetch fail with the 502 upstream error; a failing ratios (or
growth) sub-request is absorbed as an empty record, so the result still
carries the profile-derived name, price, market cap and identifier while the
failed sub-request's fields are absent. -/
theorem fmp_profile_fatal_others_absorbed (k : String) (hk : k ≠ "")
    (net : FmpNet) (ticker : String) :
    (∀ m, net.profile = .error m →
      fetch_fmp_info (some k) net ticker =
        .error ⟨502, "FMP profile error: " ++ m⟩) ∧
    (∀ pr gr m, net.profile = .ok pr → net.ratios = .error m →
        net.growth = .ok gr →
      fetch_fmp_info (some k) net ticker =
        .ok (assembleInfo (listFirst emptyProfile pr) emptyRatios
          (listFirst emptyGrowth gr)) ∧
      (assembleInfo (listFirst emptyProfile pr) emptyRatios
          (listFirst emptyGrowth gr)).forwardPE = none ∧
      (assembleInfo (listFirst emptyProfile pr) emptyRatios
          (listFirst emptyGrowth gr)).grossMargins = none ∧
      (assembleInfo (listFirst emptyProfile pr) emptyRatios
          (listFirst emptyGrowth gr)).operatingMargins = none ∧
      (assembleInfo (listFirst emptyProfile pr) emptyRatios
          (listFirst emptyGrowth gr)).returnOnEquity = none ∧
      (assembleInfo (listFirst emptyProfile pr) emptyRatios
          (listFirst emptyGrowth gr)).returnOnCapitalEmployed = none ∧
      (assembleInfo (listFirst emptyProfile pr) emptyRatios
          (listFirst emptyGrowth gr)).debtToEquity = none ∧
      (assembleInfo (listFirst emptyProfile pr) emptyRatios
          (listFirst emptyGrowth gr)).longName =
        strOr (listFirst emptyProfile pr).companyName
          (listFirst emptyProfile pr).symbol ∧
      (assembleInfo (listFirst emptyProfile pr) emptyRatios
          (listFirst emptyGrowth gr)).currentPrice =
        (listFirst emptyProfile pr).price ∧
      (assembleInfo (listFirst emptyProfile pr) emptyRatios
          (listFirst emptyGrowth gr)).marketCap =
        (listFirst emptyProfile pr).mktCap ∧
      (assembleInfo (listFirst emptyProfile pr) emptyRatios
          (listFirst emptyGrowth gr)).cik = (listFirst emptyProfile pr).cik) ∧
    (∀ pr rt m, net.profile = .ok pr → net.ratios = .ok rt →
        net.growth = .error m →
      fetch_fmp_info (some k) net ticker =
        .ok (assembleInfo (listFirst emptyProfile pr)
          (listFirst emptyRatios rt) emptyGrowth) ∧
      (assembleInfo (listFirst emptyProfile pr) (listFirst emptyRatios rt)
          emptyGrowth).revenueGrowth = none ∧
      (assembleInfo (listFirst emptyProfile pr) (listFirst emptyRatios rt)
          emptyGrowth).earningsGrowth = none ∧
      (assembleInfo (listFirst emptyProfile pr) (listFirst emptyRatios rt)
          emptyGrowth).longName =
        strOr (listFirst emptyProfile pr).companyName
          (listFirst emptyProfile pr).symbol ∧
      (assembleInfo (listFirst emptyProfile pr) (listFirst emptyRatios rt)
          emptyGrowth).currentPrice = (listFirst emptyProfile pr).price ∧
      (assembleInfo (listFirst emptyProfile pr) (listFirst emptyRatios rt)
          emptyGrowth).marketCap = (listFirst emptyProfile pr).mktCap ∧
      (assembleInfo (listFirst emptyProfile pr) (listFirst emptyRatios rt)
          emptyGrowth).cik = (listFirst emptyProfile pr).cik) := by
  have hkt : keyTruthy (some k) = true := by simp [keyTruthy, hk]
  refine ⟨?_, ?_, ?_⟩
  · intro m hm
    simp only [fetch_fmp_info, fmp_get, hkt, if_true, hm]
    try rfl
  · intro pr gr m hp hr hg
    refine ⟨?_, rfl, rfl, rfl, rfl, rfl, rfl, rfl, rfl, rfl, rfl⟩
    simp only [fetch_fmp_info, fmp_get, hkt, if_true, hp, hr, hg]
    try rfl
  · intro pr rt m hp hr hg
    refine ⟨?_, rfl, rfl, rfl, rfl, rfl, rfl⟩
    simp only [fetch_fmp_info, fmp_get, hkt, if_true, hp, hr, hg]
    try rfl

/-- Witness for C5 at three concrete networks: profile down, ratios down,
growth down. -/
theorem fmp_profile_fatal_others_absorbed_witness :
    fetch_fmp_info (some "KEY") netProfileDown "ACME" =
      .error ⟨502, "FMP profile error: boom"⟩ ∧
    fetch_fmp_info (some "KEY") netRatiosDown "ACME" =
      .ok (assembleInfo prA emptyRatios grA) ∧
    (assembleInfo prA emptyRatios grA).forwardPE = none ∧
    (assembleInfo prA emptyRatios grA).currentPrice = some 50 ∧
    fetch_fmp_info (some "KEY") netGrowthDown "ACME" =
      .ok (assembleInfo prA rtA emptyGrowth) ∧
    (assembleInfo prA rtA emptyGrowth).revenueGrowth = none ∧
    (assembleInfo prA rtA emptyGrowth).marketCap = some 1000000000 := by
  obtain ⟨h1, h2, h3⟩ :=
    fmp_profile_fatal_others_absorbed "KEY" (by decide) netProfileDown "ACME"
  obtain ⟨g1, g2, g3⟩ :=
    fmp_profile_fatal_others_absorbed "KEY" (by decide) netRatiosDown "ACME"
  obtain ⟨f1, f2, f3⟩ :=
    fmp_profile_fatal_others_absorbed "KEY" (by decide) netGrowthDown "ACME"
  refine ⟨h1 "boom" rfl, ?_⟩
  obtain ⟨e1, e2, _, _, _, _, _, _, _, _, _⟩ :=
    g2 (.list [prA]) (.list [grA]) "down" rfl rfl rfl
  obtain ⟨d1, d2, _, _, _, _, _⟩ :=
    f3 (.list [prA]) (.list [rtA]) "down" rfl rfl rfl
  exact ⟨e1, e2, rfl, d1, d2, rfl⟩

/-- C2 counterexample: the primary client exhausts its retries on a "429"
rate-limit signature and no FMP credential is configured, yet the
caller-visible error is 502 — the profile handler's blanket
`except Exception` catches `fmp_get`'s 503 `HTTPException` and re-raises it
as the 502 "FMP profile error" — so no 503 ever reaches the caller. -/
theorem fallback_missing_key_not_503_cex :
    get_company (fun _ => YAttempt.exn "429") (.error "x") none cexNet
      (fun _ => none) "ACME" =
      .error ⟨502,
        "FMP profile error: 503: FMP API key not set. Set FMP_API_KEY env var."⟩ ∧
    ¬ ∃ d, get_company (fun _ => YAttempt.exn "429") (.error "x") none cexNet
      (fun _ => none) "ACME" = .error ⟨503, d⟩ := by
  have h : get_company (fun _ => YAttempt.exn "429") (.error "x") none cexNet
      (fun _ => none) "ACME" =
      .error ⟨502,
        "FMP profile error: 503: FMP API key not set. Set FMP_API_KEY env var."⟩ := by
    rfl
  refine ⟨h, ?_⟩
  rintro ⟨d, hd⟩
  rw [h] at hd
  simp only [Except.error.injEq, Http.mk.injEq] at hd
  exact absurd hd.1 (by decide)

/-- C2 amended: whenever the primary client fails (so the fallback path runs)
and no FMP credential is configured, the caller-visible error is the 502
upstream error whose detail wraps the 503 "FMP API key not set" message —
the 503 itself is swallowed by the profile sub-request's handler. -/
theorem fallback_missing_key_yields_502 (outcomes : ℕ → YAttempt)
    (fastLast : Except String (Option ℚ)) (net : FmpNet)
    (filingOf : String → Option String) (ticker : String)
    (hfail : ∃ e, (fetch_yahoo_info_with_retry outcomes 4 1.5).result =
      .error e) :
    get_company outcomes fastLast none net filingOf ticker =
      .error ⟨502,
        "FMP profile error: 503: FMP API key not set. Set FMP_API_KEY env var."⟩ := by
  obtain ⟨e, he⟩ := hfail
  unfold get_company
  rw [he]
  rfl

/-- Witness for the amended C2: a persistent timeout signature (a transient
but non-rate-limit failure) with no credential ends in the wrapped 502. -/
theorem fallback_missing_key_yields_502_witness :
    get_company (fun _ => YAttempt.exn "timed out") (.error "x") none cexNet
      (fun _ => none) "T" =
      .error ⟨502,
        "FMP profile error: 503: FMP API key not set. Set FMP_API_KEY env var."⟩ :=
  fallback_missing_key_yields_502 (fun _ => YAttempt.exn "timed out")
    (.error "x") cexNet (fun _ => none) "T"
    ⟨⟨502, "Yahoo request failed: timed out"⟩, rfl⟩
